import Mathlib

/-!
Verification of the condition-polling wait/check engine of
`ballcosmos/script/api_shared.py`.

Shallow embedding conventions:
* Wall-clock readings (`time.time()`) are modelled by an oracle
  `clock : Nat → ℚ` giving the result of the k-th call to `time.time()`
  made during one engine invocation; times are exact rationals.
* Telemetry readings (`tlm_variable` / `tlm`) are modelled by an oracle
  `sample : Nat → α` giving the k-th sampled value.
* The cancellable delay primitive is a parameter `delay : ℚ → Bool`
  (spec §6 DelayPrimitive); the concrete composition uses
  `cosmos_script_sleep`, translated from source lines 690-696.
* Python exceptions become an explicit `PyErr` error channel; the
  distinct Python exception classes (`CheckError`, `RuntimeError`,
  `AttributeError`, `TypeError`) are separate constructors.
* Python's `"{:g}"` float formatting and `str()` rendering are abstract
  collaborator parameters `g : ℚ → String` / `pyS : α → String`: decimal
  rendering of IEEE floats is outside the rational model, while the
  message *structure* is modelled exactly.
* The dynamic `eval` of a comparison text against the `value` binding is
  an abstract collaborator `ev : String → α → Bool` (spec §6 treats the
  expression grammar as external); tolerance paths, whose expression
  text is built concretely by the source, get their predicate spelled
  out from that text with exact rational literals.
-/

/-- Python exception classes raised by the module. -/
inductive PyErr where
  | checkError (msg : String)
  | runtimeError (msg : String)
  | attributeError (msg : String)
  | typeError (msg : String)
  | valueError (msg : String)
  deriving DecidableEq, Repr

/-- Log levels used by the module (`logger.info` / `logger.warning`). -/
inductive Level where
  | info
  | warning
  deriving DecidableEq, Repr

/-- One log emission: level and message text. -/
abbrev LogEvent := Level × String

/-- The external world as seen by one engine invocation: the stream of
`time.time()` results and the stream of sampled telemetry values. -/
structure Oracle (α : Type) where
  clock : Nat → ℚ
  sample : Nat → α

/-- Which terminal branch of the poll loop produced the result:
`success` = predicate true at line 704-705, `timedOut` = deadline break at
lines 706-707/725, `canceledSuccess`/`canceledFail` = the re-sample branch
after a canceled delay at lines 718-723. -/
inductive ExitPath where
  | success
  | timedOut
  | canceledSuccess
  | canceledFail
  deriving DecidableEq, Repr

/-- Instrumented result of `_cosmos_script_wait_implementation`:
the returned `[success, value]` pair plus a trace of the delay calls made
(clock-index at tick start, duration passed to the delay primitive),
the number of sample+evaluate cycles performed, and the next unconsumed
clock/sample oracle indices. -/
structure LoopResult (α : Type) where
  success : Bool
  value : α
  path : ExitPath
  sleeps : List (Nat × ℚ)
  samples : Nat
  nextClock : Nat
  nextSample : Nat
  deriving Repr

/-- The body of the `while True` loop of
`_cosmos_script_wait_implementation` (source lines 701-725), translated
statement by statement.  `ci`/`si` are the next clock/sample oracle
indices, `n` the count of sample+evaluate cycles so far, `sleeps` the
accumulated delay-call trace, and the final `Nat` is fuel (the source
loop is unbounded; `none` means fuel ran out before the loop returned). -/
def waitLoop (o : Oracle α) (delay : ℚ → Bool) (pred : α → Bool)
    (end_time polling_rate : ℚ) :
    Nat → Nat → Nat → List (Nat × ℚ) → Nat → Option (LoopResult α)
  | _, _, _, _, 0 => none
  | ci, si, n, sleeps, fuel + 1 =>
    let work_start := o.clock ci
    let value := o.sample si
    if pred value then
      some ⟨true, value, .success, sleeps, n + 1, ci + 1, si + 1⟩
    else if end_time ≤ o.clock (ci + 1) then
      some ⟨false, value, .timedOut, sleeps, n + 1, ci + 2, si + 1⟩
    else
      let delta := o.clock (ci + 2) - work_start
      let sleep_time := polling_rate - delta
      let end_delta := end_time - o.clock (ci + 3)
      let sleep_time := if end_delta < sleep_time then end_delta else sleep_time
      let sleep_time := if sleep_time < 0 then 0 else sleep_time
      let canceled := delay sleep_time
      if canceled then
        let value := o.sample (si + 1)
        if pred value then
          some ⟨true, value, .canceledSuccess, sleeps ++ [(ci, sleep_time)], n + 2, ci + 4, si + 2⟩
        else
          some ⟨false, value, .canceledFail, sleeps ++ [(ci, sleep_time)], n + 2, ci + 4, si + 2⟩
      else
        waitLoop o delay pred end_time polling_rate
          (ci + 4) (si + 1) (n + 1) (sleeps ++ [(ci, sleep_time)]) fuel

/-- Source `_cosmos_script_wait_implementation` (source lines 698-725), generic
over the delay primitive.  `ci`/`si` are the first unconsumed oracle
indices at entry (`end_time = time.time() + timeout` consumes clock
index `ci`). -/
def cosmosScriptWaitImplementationGen (o : Oracle α) (delay : ℚ → Bool)
    (pred : α → Bool) (timeout polling_rate : ℚ) (fuel ci si : Nat) :
    Option (LoopResult α) :=
  let end_time := o.clock ci + timeout
  waitLoop o delay pred end_time polling_rate (ci + 1) si 0 [] fuel

/-- Source `cosmos_script_sleep` (source lines 690-696): sleeps (or, with no
argument, blocks on `input`) and then returns `False` on every path; the
side effect is outside the model, the return value is the point. -/
def cosmos_script_sleep (_sleep_time : Option ℚ) : Bool :=
  false

/-- The delay primitive as actually wired inside the loop:
`canceled = cosmos_script_sleep(sleep_time)` (source line 716). -/
def cosmosDelay : ℚ → Bool :=
  fun t => cosmos_script_sleep (some t)

/-- Source `_cosmos_script_wait_implementation` with its concrete delay
primitive `cosmos_script_sleep` (the composition in the source). -/
def cosmosScriptWaitImplementation (o : Oracle α) (pred : α → Bool)
    (timeout polling_rate : ℚ) (fuel ci si : Nat) : Option (LoopResult α) :=
  cosmosScriptWaitImplementationGen o cosmosDelay pred timeout polling_rate fuel ci si

/-- Source `DEFAULT_TLM_POLLING_RATE = 0.25` (source line 10). -/
def DEFAULT_TLM_POLLING_RATE : ℚ := 0.25

/-- A Python argument value as passed to the variable-arity entry
points: a number, a string, or a list of numbers. -/
inductive PyVal where
  | num (q : ℚ)
  | str (s : String)
  | lst (l : List ℚ)
  deriving DecidableEq, Repr

/-- Numeric view of an argument.  The source uses these positions
directly in arithmetic; a string or list there would raise `TypeError`
in Python, a case no claim exercises (callers pass numbers), so the
projection defaults to `0`. -/
def PyVal.q : PyVal → ℚ
  | .num q => q
  | .str _ => 0
  | .lst _ => 0

/-- String view of an argument (target/packet/item/comparison
positions; callers pass strings there). -/
def PyVal.asStr : PyVal → String
  | .str s => s
  | .num _ => ""
  | .lst _ => ""

/-- Python `abs()` applied to an argument: numbers yield their absolute
value; `abs` of a string or list raises `TypeError`. -/
def pyAbs : PyVal → Except PyErr ℚ
  | .num q => .ok |q|
  | .str _ => .error (.typeError "bad operand type for abs(): 'str'")
  | .lst _ => .error (.typeError "bad operand type for abs(): 'list'")

/-- A sampled telemetry value: a scalar or a vector
(`isinstance(value, list)` distinguishes the two in the source). -/
inductive Sample where
  | flt (q : ℚ)
  | arr (l : List ℚ)
  deriving DecidableEq, Repr

/-- Scalar view of a sample; the source paths applying it are only
reached with scalar samples (a list there would raise `TypeError`). -/
def Sample.q : Sample → ℚ
  | .flt q => q
  | .arr _ => 0

/-- Vector view of a sample. -/
def Sample.asArr : Sample → List ℚ
  | .arr l => l
  | .flt _ => []

/-- The arity-error message built at source lines 542, 559, 618, 645
and 687: `"ERROR: Invalid number of arguments ({:d}) passed to {:s}()"`. -/
def arityMsg (n : Nat) (function_name : String) : String :=
  "ERROR: Invalid number of arguments (" ++ toString n ++ ") passed to "
    ++ function_name ++ "()"

/-- Source `_upcase` (source lines 12-14). -/
def _upcase (target_name packet_name item_name : String) : String :=
  target_name.toUpper ++ " " ++ packet_name.toUpper ++ " " ++ item_name.toUpper

/-- Source `check_process_args` (source lines 531-543).  `parse4` is the
external `extract_fields_from_check_text` collaborator. -/
def check_process_args (parse4 : String → String × String × String × String)
    (args : List PyVal) (function_name : String) :
    Except PyErr (String × String × String × String) :=
  match args with
  | [a] => .ok (parse4 a.asStr)
  | [a, b, c, d] => .ok (a.asStr, b.asStr, c.asStr, d.asStr)
  | _ => .error (.runtimeError (arityMsg args.length function_name))

/-- Source `check_tolerance_process_args` (source lines 545-560).  `parse3` is
the external `extract_fields_from_tlm_text` collaborator.  The returned
tolerance is `abs(args[i])`, a scalar. -/
def check_tolerance_process_args (parse3 : String → String × String × String)
    (args : List PyVal) (function_name : String) :
    Except PyErr (String × String × String × PyVal × ℚ) := do
  match args with
  | [a, ev, tol] =>
    let t ← pyAbs tol
    let (target_name, packet_name, item_name) := parse3 a.asStr
    return (target_name, packet_name, item_name, ev, t)
  | [a, b, c, ev, tol] =>
    let t ← pyAbs tol
    return (a.asStr, b.asStr, c.asStr, ev, t)
  | _ => .error (.runtimeError (arityMsg args.length function_name))

/-- Source `wait_check_process_args` (source lines 666-688). -/
def wait_check_process_args (parse4 : String → String × String × String × String)
    (args : List PyVal) (function_name : String) :
    Except PyErr (String × String × String × String × ℚ × ℚ) :=
  match args with
  | [a, t] =>
    let (target_name, packet_name, item_name, comparison_to_eval) := parse4 a.asStr
    .ok (target_name, packet_name, item_name, comparison_to_eval, t.q, DEFAULT_TLM_POLLING_RATE)
  | [a, t, p] =>
    let (target_name, packet_name, item_name, comparison_to_eval) := parse4 a.asStr
    .ok (target_name, packet_name, item_name, comparison_to_eval, t.q, p.q)
  | [a, b, c, d, t] =>
    .ok (a.asStr, b.asStr, c.asStr, d.asStr, t.q, DEFAULT_TLM_POLLING_RATE)
  | [a, b, c, d, t, p] =>
    .ok (a.asStr, b.asStr, c.asStr, d.asStr, t.q, p.q)
  | _ => .error (.runtimeError (arityMsg args.length function_name))

/-- Source `wait_tolerance_process_args` (source lines 621-646). -/
def wait_tolerance_process_args (parse3 : String → String × String × String)
    (args : List PyVal) (function_name : String) :
    Except PyErr (String × String × String × PyVal × ℚ × ℚ × ℚ) := do
  match args with
  | [a, ev, tol, t] =>
    let (target_name, packet_name, item_name) := parse3 a.asStr
    let tl ← pyAbs tol
    return (target_name, packet_name, item_name, ev, tl, t.q, DEFAULT_TLM_POLLING_RATE)
  | [a, ev, tol, t, p] =>
    let (target_name, packet_name, item_name) := parse3 a.asStr
    let tl ← pyAbs tol
    return (target_name, packet_name, item_name, ev, tl, t.q, p.q)
  | [a, b, c, ev, tol, t] =>
    let tl ← pyAbs tol
    return (a.asStr, b.asStr, c.asStr, ev, tl, t.q, DEFAULT_TLM_POLLING_RATE)
  | [a, b, c, ev, tol, t, p] =>
    let tl ← pyAbs tol
    return (a.asStr, b.asStr, c.asStr, ev, tl, t.q, p.q)
  | _ => .error (.runtimeError (arityMsg args.length function_name))

/-- Source `array_tolerance_process_args` (source lines 648-664): broadcast a
scalar expected/tolerance to `array_size` copies, or validate a supplied
list's length against `array_size`. -/
def array_tolerance_process_args (array_size : Nat) (expected_value tolerance : PyVal)
    (function_name : String) : Except PyErr (List ℚ × List ℚ) := do
  let ev ← match expected_value with
    | .lst l =>
      if array_size ≠ l.length then
        Except.error (.runtimeError
          ("ERROR: Invalid array size for expected_value passed to " ++ function_name ++ "()"))
      else
        pure l
    | v => pure (List.replicate array_size v.q)
  let tol ← match tolerance with
    | .lst l =>
      if array_size ≠ l.length then
        Except.error (.runtimeError
          ("ERROR: Invalid array size for tolerance passed to " ++ function_name ++ "()"))
      else
        pure l
    | v => pure (List.replicate array_size v.q)
  return (ev, tol)

/-- The inclusive bound test written at source lines 85, 101, 180 and
291: `value >= range_bottom and value <= range_top` with
`range_bottom = expected_value - tolerance`,
`range_top = expected_value + tolerance`. -/
def toleranceCheck (expected_value tolerance value : ℚ) : Bool :=
  decide (value ≥ expected_value - tolerance) && decide (value ≤ expected_value + tolerance)

/-- The predicate denoted by the expression text built at source line
733, `"(value >= (expected - |tol|) and value <= (|tol| + expected))"`,
with the numeric literals taken exactly (their `{:g}` rendering is float
formatting, outside the rational model).  Evaluating the comparison
against a list sample would raise `TypeError` in Python; that case is
never exercised and is modelled as `false`. -/
def tolerance_exp_pred (expected_value tolerance : ℚ) : Sample → Bool
  | .flt value =>
    decide (value ≥ expected_value - |tolerance|) && decide (value ≤ |tolerance| + expected_value)
  | .arr _ => false

/-- The per-element message/conjunction loop of `_check_tolerance`
(source lines 78-89): one line per element, `was within #` or
`failed to be within`, and the running `all_checks_ok` flag. -/
def toleranceLines (g : ℚ → String) (check_label : String) :
    Nat → List ℚ → List ℚ → List ℚ → String × Bool
  | _, [], _, _ => ("", true)
  | _, _ :: _, [], _ => ("", true)
  | _, _ :: _, _ :: _, [] => ("", true)
  | i, v :: vs, e :: es, t :: ts =>
    let range_bottom := e - t
    let range_top := e + t
    let check_str := check_label ++ "[" ++ toString i ++ "]"
    let range_str := "range " ++ g range_bottom ++ " to " ++ g range_top
      ++ " with value == " ++ g v
    let rest := toleranceLines g check_label (i + 1) vs es ts
    if toleranceCheck e t v then
      (check_str ++ " was within #" ++ range_str ++ "\n" ++ rest.1, rest.2)
    else
      (check_str ++ " failed to be within " ++ range_str ++ "\n" ++ rest.1, false)

/-- Source `_check_tolerance` (source lines 72-106).  The telemetry `method` is
the oracle's sample stream; `g` models `{:g}` formatting.  Note the
function name passed to both resolvers is the literal
`'check_tolerance'` for every caller. -/
def _check_tolerance (g : ℚ → String) (parse3 : String → String × String × String)
    (o : Oracle Sample) (args : List PyVal) : Except PyErr (List LogEvent) := do
  let (target_name, packet_name, item_name, expected_value, tolerance) ←
    check_tolerance_process_args parse3 args "check_tolerance"
  let value := o.sample 0
  match value with
  | .arr l => do
    let (evl, toll) ←
      array_tolerance_process_args l.length expected_value (.num tolerance) "check_tolerance"
    let mOk := toleranceLines g ("CHECK: " ++ _upcase target_name packet_name item_name) 0 l evl toll
    if mOk.2 then
      return [(.info, mOk.1)]
    else
      .error (.checkError mOk.1)
  | .flt v =>
    let range_bottom := expected_value.q - tolerance
    let range_top := expected_value.q + tolerance
    let check_str := "CHECK: " ++ _upcase target_name packet_name item_name
    let range_str := "range " ++ g range_bottom ++ " to " ++ g range_top
      ++ " with value == " ++ g v
    if toleranceCheck expected_value.q tolerance v then
      return [(.info, check_str ++ " was within " ++ range_str)]
    else
      .error (.checkError (check_str ++ " failed to be within " ++ range_str))

/-- Source `check_tolerance` (source lines 108-117); the converted-value
telemetry method is the supplied oracle. -/
def check_tolerance (g : ℚ → String) (parse3 : String → String × String × String)
    (o : Oracle Sample) (args : List PyVal) : Except PyErr (List LogEvent) :=
  _check_tolerance g parse3 o args

/-- Source `check_tolerance_raw` (source lines 119-128); identical body, the
raw-value telemetry method is the supplied oracle. -/
def check_tolerance_raw (g : ℚ → String) (parse3 : String → String × String × String)
    (o : Oracle Sample) (args : List PyVal) : Except PyErr (List LogEvent) :=
  _check_tolerance g parse3 o args

/-- Source `check_eval` (source lines 772-781).  `ev` models the dynamic
`eval` of the expression text against the `value` binding; `pyS` models
`str()`. -/
def check_eval (pyS : Sample → String) (ev : String → Sample → Bool)
    (target_name packet_name item_name comparison_to_eval : String) (value : Sample) :
    Except PyErr (List LogEvent) :=
  let string := "value " ++ comparison_to_eval
  let check_str := "CHECK: " ++ _upcase target_name packet_name item_name
    ++ " " ++ comparison_to_eval
  let value_str := "with value == " ++ pyS value
  if ev string value then
    .ok [(.info, check_str ++ " success " ++ value_str)]
  else
    .error (.checkError (check_str ++ " failed " ++ value_str))

/-- Source `_check` (source lines 16-26).  The resolver is always handed the
literal name `'check'`.  When no comparison is given the source (line
26) calls `_upcase` with four arguments, which raises `TypeError`. -/
def _check (pyS : Sample → String) (ev : String → Sample → Bool)
    (parse4 : String → String × String × String × String)
    (o : Oracle Sample) (args : List PyVal) : Except PyErr (List LogEvent) := do
  let (target_name, packet_name, item_name, comparison_to_eval) ←
    check_process_args parse4 args "check"
  let value := o.sample 0
  if comparison_to_eval ≠ "" then
    check_eval pyS ev target_name packet_name item_name comparison_to_eval value
  else
    .error (.typeError "_upcase() takes 3 positional arguments but 4 were given")

/-- Source `check` (source lines 28-37). -/
def check (pyS : Sample → String) (ev : String → Sample → Bool)
    (parse4 : String → String × String × String × String)
    (o : Oracle Sample) (args : List PyVal) : Except PyErr (List LogEvent) :=
  _check pyS ev parse4 o args

/-- Source `check_raw` (source lines 61-70): same body over the raw-value
telemetry stream. -/
def check_raw (pyS : Sample → String) (ev : String → Sample → Bool)
    (parse4 : String → String × String × String × String)
    (o : Oracle Sample) (args : List PyVal) : Except PyErr (List LogEvent) :=
  _check pyS ev parse4 o args


/-- Source `_cosmos_script_wait_implementation` composed with its concrete
delay primitive `cosmos_script_sleep` exactly as in the source (line
716).  `ci`/`si` are the first unconsumed clock/sample indices at entry. -/
def _cosmos_script_wait_implementation (o : Oracle α) (pred : α → Bool)
    (timeout polling_rate : ℚ) (fuel ci si : Nat) : Option (LoopResult α) :=
  cosmosScriptWaitImplementationGen o cosmosDelay pred timeout polling_rate fuel ci si

/-- Source `cosmos_script_wait_implementation` (source lines 728-730): builds
`exp_to_eval = "value " + comparison_to_eval` and runs the poll loop;
`ev` models `eval` of the expression text against the `value` binding. -/
def cosmos_script_wait_implementation (ev : String → α → Bool) (o : Oracle α)
    (comparison_to_eval : String) (timeout polling_rate : ℚ) (fuel ci si : Nat) :
    Option (LoopResult α) :=
  let exp_to_eval := "value " ++ comparison_to_eval
  _cosmos_script_wait_implementation o (fun value => ev exp_to_eval value)
    timeout polling_rate fuel ci si

/-- Source `cosmos_script_wait_implementation_tolerance` (source lines
732-734): the poll loop driven by the tolerance expression text of line
733, whose denotation is `tolerance_exp_pred`. -/
def cosmos_script_wait_implementation_tolerance (o : Oracle Sample)
    (expected_value tolerance timeout polling_rate : ℚ) (fuel ci si : Nat) :
    Option (LoopResult Sample) :=
  _cosmos_script_wait_implementation o (tolerance_exp_pred expected_value tolerance)
    timeout polling_rate fuel ci si

/-- Python `list` objects have no `join` method (`join` belongs to
`str`), so the attribute lookup in `statements.join(" and ")` at source
line 740 raises `AttributeError` for every list. -/
def list_join (_statements : List String) (_sep : String) : Except PyErr String :=
  .error (.attributeError "'list' object has no attribute 'join'")

/-- Source `cosmos_script_wait_implementation_array_tolerance` (source lines
736-741): builds the per-element clause strings of line 739, then
evaluates `statements.join(" and ")` (line 740), then would run the
poll loop on the joined expression. -/
def cosmos_script_wait_implementation_array_tolerance (g : ℚ → String)
    (ev : String → Sample → Bool) (o : Oracle Sample) (array_size : Nat)
    (expected_value tolerance : List ℚ) (timeout polling_rate : ℚ) (fuel ci si : Nat) :
    Except PyErr (Option (LoopResult Sample)) := do
  let statements := (List.range array_size).map (fun i =>
    "(value >= (" ++ g (expected_value.getD i 0) ++ " - " ++ g |tolerance.getD i 0| ++ ")"
      ++ " and value <= (" ++ g |tolerance.getD i 0| ++ " + " ++ g (expected_value.getD i 0) ++ "))")
  let exp_to_eval ← list_join statements " and "
  return _cosmos_script_wait_implementation o (fun value => ev exp_to_eval value)
    timeout polling_rate fuel ci si

/-- Source `_execute_wait` (source lines 562-572): runs the poll loop, then
logs success at info level or failure at warning level; it returns
`None` and never raises on a false predicate.  `start_time` consumes
clock index 0; the loop starts at clock index 1, sample index 0.
`none` means the model's fuel ran out. -/
def _execute_wait (g : ℚ → String) (pyS : Sample → String) (ev : String → Sample → Bool)
    (o : Oracle Sample) (target_name packet_name item_name value_type comparison_to_eval : String)
    (timeout polling_rate : ℚ) (fuel : Nat) : Option (List LogEvent) :=
  match cosmos_script_wait_implementation ev o comparison_to_eval timeout polling_rate fuel 1 0 with
  | none => none
  | some r =>
    let time_float := o.clock r.nextClock - o.clock 0
    let wait_str := "WAIT: " ++ _upcase target_name packet_name item_name
      ++ " " ++ comparison_to_eval
    let value_str := "with value == " ++ pyS r.value
      ++ " after waiting " ++ g time_float ++ " seconds"
    if r.success then
      some [(.info, wait_str ++ " success " ++ value_str)]
    else
      some [(.warning, wait_str ++ " failed " ++ value_str)]

/-- A `float()` conversion of the single `wait(time)` argument (source
line 587): numbers pass through, strings go to the external float
parser (`ValueError` when unparsable), lists raise `TypeError`. -/
def pyFloatOf (pyfloat : String → Option ℚ) : PyVal → Except PyErr ℚ
  | .num q => .ok q
  | .str s =>
    match pyfloat s with
    | some q => .ok q
    | none => .error (.valueError "could not convert string to float")
  | .lst _ => .error (.typeError "float() argument must be a string or a number")

/-- Source `wait_process_args` (source lines 574-619).  `time_float` is
initialized to `None` and is only assigned in the 0- and 1-argument
branches; the polling branches leave it `None`.  The returned pair is
(log events, Python return value). -/
def wait_process_args (g : ℚ → String) (pyS : Sample → String) (ev : String → Sample → Bool)
    (parse4 : String → String × String × String × String) (pyfloat : String → Option ℚ)
    (o : Oracle Sample) (args : List PyVal) (function_name value_type : String) (fuel : Nat) :
    Option (List LogEvent × Except PyErr (Option ℚ)) :=
  match args with
  | [] =>
    let _ := cosmos_script_sleep none
    let time_float := o.clock 1 - o.clock 0
    some ([(.info, "WAIT: Indefinite for actual time of " ++ g time_float ++ " seconds")],
      .ok (some time_float))
  | [a] =>
    match pyFloatOf pyfloat a with
    | .error (.valueError _) =>
      some ([], .error (.runtimeError "Non-numeric wait time specified"))
    | .error e => some ([], .error e)
    | .ok value =>
      let _ := cosmos_script_sleep (some value)
      let time_float := o.clock 1 - o.clock 0
      some ([(.info, "WAIT: " ++ g value ++ " seconds with actual time of "
        ++ g time_float ++ " seconds")], .ok (some time_float))
  | [a, t] =>
    let (target_name, packet_name, item_name, comparison_to_eval) := parse4 a.asStr
    match _execute_wait g pyS ev o target_name packet_name item_name value_type
        comparison_to_eval t.q DEFAULT_TLM_POLLING_RATE fuel with
    | none => none
    | some logs => some (logs, .ok none)
  | [a, t, p] =>
    let (target_name, packet_name, item_name, comparison_to_eval) := parse4 a.asStr
    match _execute_wait g pyS ev o target_name packet_name item_name value_type
        comparison_to_eval t.q p.q fuel with
    | none => none
    | some logs => some (logs, .ok none)
  | [a, b, c, d, t] =>
    match _execute_wait g pyS ev o a.asStr b.asStr c.asStr value_type
        d.asStr t.q DEFAULT_TLM_POLLING_RATE fuel with
    | none => none
    | some logs => some (logs, .ok none)
  | [a, b, c, d, t, p] =>
    match _execute_wait g pyS ev o a.asStr b.asStr c.asStr value_type
        d.asStr t.q p.q fuel with
    | none => none
    | some logs => some (logs, .ok none)
  | _ => some ([], .error (.runtimeError (arityMsg args.length function_name)))

/-- Source `wait` (source lines 141-148): calls `wait_process_args` and falls
off the end without a `return` statement, so it returns `None`. -/
def wait (g : ℚ → String) (pyS : Sample → String) (ev : String → Sample → Bool)
    (parse4 : String → String × String × String × String) (pyfloat : String → Option ℚ)
    (o : Oracle Sample) (args : List PyVal) (fuel : Nat) :
    Option (List LogEvent × Except PyErr (Option ℚ)) :=
  match wait_process_args g pyS ev parse4 pyfloat o args "wait" "CONVERTED" fuel with
  | none => none
  | some (logs, .error e) => some (logs, .error e)
  | some (logs, .ok _) => some (logs, .ok none)

/-- Source `wait_raw` (source lines 150-156): same shape as `wait`, also
without a `return` statement. -/
def wait_raw (g : ℚ → String) (pyS : Sample → String) (ev : String → Sample → Bool)
    (parse4 : String → String × String × String × String) (pyfloat : String → Option ℚ)
    (o : Oracle Sample) (args : List PyVal) (fuel : Nat) :
    Option (List LogEvent × Except PyErr (Option ℚ)) :=
  match wait_process_args g pyS ev parse4 pyfloat o args "wait_raw" "RAW" fuel with
  | none => none
  | some (logs, .error e) => some (logs, .error e)
  | some (logs, .ok _) => some (logs, .ok none)

/-- The per-element message loop of `_wait_tolerance` /
`_wait_check_tolerance` (source lines 174-183 and 285-294): identical to
`toleranceLines` except for an `" after waiting {:g} seconds"` suffix on
each range string.  Unreachable in practice (see
`cosmos_script_wait_implementation_array_tolerance`), embedded for
completeness. -/
def toleranceLinesWait (g : ℚ → String) (check_label suffix : String) :
    Nat → List ℚ → List ℚ → List ℚ → String × Bool
  | _, [], _, _ => ("", true)
  | _, _ :: _, [], _ => ("", true)
  | _, _ :: _, _ :: _, [] => ("", true)
  | i, v :: vs, e :: es, t :: ts =>
    let range_bottom := e - t
    let range_top := e + t
    let check_str := check_label ++ "[" ++ toString i ++ "]"
    let range_str := "range " ++ g range_bottom ++ " to " ++ g range_top
      ++ " with value == " ++ g v ++ suffix
    let rest := toleranceLinesWait g check_label suffix (i + 1) vs es ts
    if toleranceCheck e t v then
      (check_str ++ " was within #" ++ range_str ++ "\n" ++ rest.1, rest.2)
    else
      (check_str ++ " failed to be within " ++ range_str ++ "\n" ++ rest.1, false)

/-- Source `_wait_tolerance` (source lines 158-202).  The resolver receives
`'wait_tolerance'` with `'_raw'` appended when `raw` is set.
`start_time` consumes clock index 0, the initial `tlm_variable` read
consumes sample index 0, and the poll loop starts at clock 1 /
sample 1.  Returns (log events, Python return value). -/
def _wait_tolerance (g : ℚ → String) (ev : String → Sample → Bool)
    (parse3 : String → String × String × String) (o : Oracle Sample)
    (raw : Bool) (args : List PyVal) (fuel : Nat) :
    Option (List LogEvent × Except PyErr (Option ℚ)) :=
  let type_string := if raw then "wait_tolerance" ++ "_raw" else "wait_tolerance"
  match wait_tolerance_process_args parse3 args type_string with
  | .error e => some ([], .error e)
  | .ok (target_name, packet_name, item_name, expected_value, tolerance, timeout, polling_rate) =>
    let value := o.sample 0
    match value with
    | .arr l =>
      match array_tolerance_process_args l.length expected_value (.num tolerance) type_string with
      | .error e => some ([], .error e)
      | .ok (evl, toll) =>
        match cosmos_script_wait_implementation_array_tolerance g ev o l.length evl toll
            timeout polling_rate fuel 1 1 with
        | .error e => some ([], .error e)
        | .ok none => none
        | .ok (some r) =>
          let time_float := o.clock r.nextClock - o.clock 0
          let mOk := toleranceLinesWait g
            ("WAIT: " ++ _upcase target_name packet_name item_name)
            (" after waiting " ++ g time_float ++ " seconds") 0 r.value.asArr evl toll
          if r.success then
            some ([(.info, mOk.1)], .ok (some time_float))
          else
            some ([(.warning, mOk.1)], .ok (some time_float))
    | .flt _ =>
      match cosmos_script_wait_implementation_tolerance o expected_value.q tolerance
          timeout polling_rate fuel 1 1 with
      | none => none
      | some r =>
        let time_float := o.clock r.nextClock - o.clock 0
        let range_bottom := expected_value.q - tolerance
        let range_top := expected_value.q + tolerance
        let wait_str := "WAIT: " ++ _upcase target_name packet_name item_name
        let range_str := "range " ++ g range_bottom ++ " to " ++ g range_top
          ++ " with value == " ++ g r.value.q ++ " after waiting " ++ g time_float ++ " seconds"
        if r.success then
          some ([(.info, wait_str ++ " was within " ++ range_str)], .ok (some time_float))
        else
          some ([(.warning, wait_str ++ " failed to be within " ++ range_str)],
            .ok (some time_float))

/-- Source `wait_tolerance` (source lines 204-210); has a `return`. -/
def wait_tolerance (g : ℚ → String) (ev : String → Sample → Bool)
    (parse3 : String → String × String × String) (o : Oracle Sample)
    (args : List PyVal) (fuel : Nat) :
    Option (List LogEvent × Except PyErr (Option ℚ)) :=
  _wait_tolerance g ev parse3 o false args fuel

/-- Source `wait_tolerance_raw` (source lines 212-218); has a `return`. -/
def wait_tolerance_raw (g : ℚ → String) (ev : String → Sample → Bool)
    (parse3 : String → String × String × String) (o : Oracle Sample)
    (args : List PyVal) (fuel : Nat) :
    Option (List LogEvent × Except PyErr (Option ℚ)) :=
  _wait_tolerance g ev parse3 o true args fuel

/-- Source `_wait_check` (source lines 232-249).  The resolver is always handed
the literal name `'wait_check'`.  On a false predicate after the loop it
raises `CheckError`; on success it logs at info level and returns
`time_float`. -/
def _wait_check (g : ℚ → String) (pyS : Sample → String) (ev : String → Sample → Bool)
    (parse4 : String → String × String × String × String) (o : Oracle Sample)
    (raw : Bool) (args : List PyVal) (fuel : Nat) :
    Option (List LogEvent × Except PyErr (Option ℚ)) :=
  match wait_check_process_args parse4 args "wait_check" with
  | .error e => some ([], .error e)
  | .ok (target_name, packet_name, item_name, comparison_to_eval, timeout, polling_rate) =>
    match cosmos_script_wait_implementation ev o comparison_to_eval timeout polling_rate fuel 1 0 with
    | none => none
    | some r =>
      let time_float := o.clock r.nextClock - o.clock 0
      let check_str := "CHECK: " ++ _upcase target_name packet_name item_name
        ++ " " ++ comparison_to_eval
      let with_value_str := "with value == " ++ pyS r.value
        ++ " after waiting " ++ g time_float ++ " seconds"
      if r.success then
        some ([(.info, check_str ++ " success " ++ with_value_str)], .ok (some time_float))
      else
        some ([], .error (.checkError (check_str ++ " failed " ++ with_value_str)))

/-- Source `wait_check` (source lines 251-258); has a `return`. -/
def wait_check (g : ℚ → String) (pyS : Sample → String) (ev : String → Sample → Bool)
    (parse4 : String → String × String × String × String) (o : Oracle Sample)
    (args : List PyVal) (fuel : Nat) :
    Option (List LogEvent × Except PyErr (Option ℚ)) :=
  _wait_check g pyS ev parse4 o false args fuel

/-- Source `wait_check_raw` (source lines 260-267); has a `return`. -/
def wait_check_raw (g : ℚ → String) (pyS : Sample → String) (ev : String → Sample → Bool)
    (parse4 : String → String × String × String × String) (o : Oracle Sample)
    (args : List PyVal) (fuel : Nat) :
    Option (List LogEvent × Except PyErr (Option ℚ)) :=
  _wait_check g pyS ev parse4 o true args fuel

/-- Source `_wait_check_tolerance` (source lines 269-314).  The resolver
receives `'wait_check_tolerance'` with `'_raw'` appended when `raw` is
set.  Failure raises `CheckError`; success logs and falls through to
`return time_float`. -/
def _wait_check_tolerance (g : ℚ → String) (ev : String → Sample → Bool)
    (parse3 : String → String × String × String) (o : Oracle Sample)
    (raw : Bool) (args : List PyVal) (fuel : Nat) :
    Option (List LogEvent × Except PyErr (Option ℚ)) :=
  let type_string := if raw then "wait_check_tolerance" ++ "_raw" else "wait_check_tolerance"
  match wait_tolerance_process_args parse3 args type_string with
  | .error e => some ([], .error e)
  | .ok (target_name, packet_name, item_name, expected_value, tolerance, timeout, polling_rate) =>
    let value := o.sample 0
    match value with
    | .arr l =>
      match array_tolerance_process_args l.length expected_value (.num tolerance) type_string with
      | .error e => some ([], .error e)
      | .ok (evl, toll) =>
        match cosmos_script_wait_implementation_array_tolerance g ev o l.length evl toll
            timeout polling_rate fuel 1 1 with
        | .error e => some ([], .error e)
        | .ok none => none
        | .ok (some r) =>
          let time_float := o.clock r.nextClock - o.clock 0
          let mOk := toleranceLinesWait g
            ("WAIT: " ++ _upcase target_name packet_name item_name)
            (" after waiting " ++ g time_float ++ " seconds") 0 r.value.asArr evl toll
          if r.success then
            some ([(.info, mOk.1)], .ok (some time_float))
          else
            some ([], .error (.checkError mOk.1))
    | .flt _ =>
      match cosmos_script_wait_implementation_tolerance o expected_value.q tolerance
          timeout polling_rate fuel 1 1 with
      | none => none
      | some r =>
        let time_float := o.clock r.nextClock - o.clock 0
        let range_bottom := expected_value.q - tolerance
        let range_top := expected_value.q + tolerance
        let check_str := "CHECK: " ++ _upcase target_name packet_name item_name
        let range_str := "range " ++ g range_bottom ++ " to " ++ g range_top
          ++ " with value == " ++ g r.value.q ++ " after waiting " ++ g time_float ++ " seconds"
        if r.success then
          some ([(.info, check_str ++ " was within " ++ range_str)], .ok (some time_float))
        else
          some ([], .error (.checkError (check_str ++ " failed to be within " ++ range_str)))

/-- Source `wait_check_tolerance` (source lines 316-317): calls
`_wait_check_tolerance` WITHOUT a `return` statement, so a normal
completion returns `None` while an exception propagates. -/
def wait_check_tolerance (g : ℚ → String) (ev : String → Sample → Bool)
    (parse3 : String → String × String × String) (o : Oracle Sample)
    (args : List PyVal) (fuel : Nat) :
    Option (List LogEvent × Except PyErr (Option ℚ)) :=
  match _wait_check_tolerance g ev parse3 o false args fuel with
  | none => none
  | some (logs, .error e) => some (logs, .error e)
  | some (logs, .ok _) => some (logs, .ok none)

/-- Source `wait_check_tolerance_raw` (source lines 319-320): likewise without
a `return` statement. -/
def wait_check_tolerance_raw (g : ℚ → String) (ev : String → Sample → Bool)
    (parse3 : String → String × String × String) (o : Oracle Sample)
    (args : List PyVal) (fuel : Nat) :
    Option (List LogEvent × Except PyErr (Option ℚ)) :=
  match _wait_check_tolerance g ev parse3 o true args fuel with
  | none => none
  | some (logs, .error e) => some (logs, .error e)
  | some (logs, .ok _) => some (logs, .ok none)

/-- The `while True` loop of `cosmos_script_wait_implementation_expression`
(source lines 748-770), same shape as `waitLoop` but driven by an
evaluation stream `evalR : Nat → Bool` (the k-th `eval(exp_to_eval,
locals)` result) instead of a sampled value.  The Python function
returns `True` on success and `None` otherwise; the `Bool` result
models that truthiness.  The pair is (result, next clock index). -/
def exprWaitLoop (evalR : Nat → Bool) (clock : Nat → ℚ) (delay : ℚ → Bool)
    (end_time polling_rate : ℚ) : Nat → Nat → Nat → Option (Bool × Nat)
  | _, _, 0 => none
  | ci, ei, fuel + 1 =>
    let work_start := clock ci
    if evalR ei then
      some (true, ci + 1)
    else if end_time ≤ clock (ci + 1) then
      some (false, ci + 2)
    else
      let delta := clock (ci + 2) - work_start
      let sleep_time := polling_rate - delta
      let end_delta := end_time - clock (ci + 3)
      let sleep_time := if end_delta < sleep_time then end_delta else sleep_time
      let sleep_time := if sleep_time < 0 then 0 else sleep_time
      let canceled := delay sleep_time
      if canceled then
        if evalR (ei + 1) then some (true, ci + 4) else some (false, ci + 4)
      else
        exprWaitLoop evalR clock delay end_time polling_rate (ci + 4) (ei + 1) fuel

/-- Source `cosmos_script_wait_implementation_expression` (source lines
743-770) with its concrete delay primitive. -/
def cosmos_script_wait_implementation_expression (evalR : Nat → Bool) (clock : Nat → ℚ)
    (timeout polling_rate : ℚ) (fuel ci ei : Nat) : Option (Bool × Nat) :=
  let end_time := clock ci + timeout
  exprWaitLoop evalR clock cosmosDelay end_time polling_rate (ci + 1) ei fuel

/-- Source `wait_expression` (source lines 220-230); has a `return`. -/
def wait_expression (g : ℚ → String) (evalR : Nat → Bool) (clock : Nat → ℚ)
    (exp_to_eval : String) (timeout polling_rate : ℚ) (fuel : Nat) :
    Option (List LogEvent × Except PyErr (Option ℚ)) :=
  match cosmos_script_wait_implementation_expression evalR clock timeout polling_rate fuel 1 0 with
  | none => none
  | some (success, nc) =>
    let time_float := clock nc - clock 0
    if success then
      some ([(.info, "WAIT: " ++ exp_to_eval ++ " is TRUE after waiting "
        ++ g time_float ++ " seconds")], .ok (some time_float))
    else
      some ([(.warning, "WAIT: " ++ exp_to_eval ++ " is FALSE after waiting "
        ++ g time_float ++ " seconds")], .ok (some time_float))

/-- Source `_wait_packet` (source lines 344-374).  The initial `RECEIVED_COUNT`
read consumes sample index 0 (before `start_time` at clock 0); the poll
loop starts at clock 1 / sample 1.  `dfmt` models `{:d}` integer
formatting. -/
def _wait_packet (g dfmt : ℚ → String) (ev : String → Sample → Bool) (o : Oracle Sample)
    (check_flag : Bool) (target_name packet_name : String) (num_packets : ℚ)
    (timeout polling_rate : ℚ) (fuel : Nat) :
    Option (List LogEvent × Except PyErr (Option ℚ)) :=
  let type := if check_flag then "CHECK" else "WAIT"
  let initial_count := (o.sample 0).q
  match cosmos_script_wait_implementation ev o (">= " ++ dfmt (initial_count + num_packets))
      timeout polling_rate fuel 1 1 with
  | none => none
  | some r =>
    let time_float := o.clock r.nextClock - o.clock 0
    if r.success then
      some ([(.info, type ++ ": " ++ target_name.toUpper ++ " " ++ packet_name.toUpper
        ++ " received " ++ dfmt (r.value.q - initial_count) ++ " times after waiting "
        ++ g time_float ++ " seconds")], .ok (some time_float))
    else
      let message := type ++ ": " ++ target_name.toUpper ++ " " ++ packet_name.toUpper
        ++ " expected to be received " ++ dfmt num_packets ++ " times but only received "
        ++ dfmt (r.value.q - initial_count) ++ " times after waiting "
        ++ g time_float ++ " seconds"
      if check_flag then
        some ([], .error (.checkError message))
      else
        some ([(.warning, message)], .ok (some time_float))

/-- Source `wait_packet` (source lines 376-381); has a `return`. -/
def wait_packet (g dfmt : ℚ → String) (ev : String → Sample → Bool) (o : Oracle Sample)
    (target_name packet_name : String) (num_packets : ℚ)
    (timeout polling_rate : ℚ) (fuel : Nat) :
    Option (List LogEvent × Except PyErr (Option ℚ)) :=
  _wait_packet g dfmt ev o false target_name packet_name num_packets timeout polling_rate fuel

/-- Monotonicity of a wall-clock stream: successive `time.time()`
readings never decrease. -/
def ClockMono (clock : Nat → ℚ) : Prop :=
  ∀ i j, i ≤ j → clock i ≤ clock j

/-- Specification of one recorded delay call `e = (tickStartIdx, dur)`:
the duration is the polling rate minus the elapsed evaluation time of
that tick, clamped above by the remaining time to the deadline and
below by zero. -/
def sleepClampSpec (o : Oracle α) (end_time polling_rate : ℚ) (e : Nat × ℚ) : Prop :=
  e.2 = max 0 (min (polling_rate - (o.clock (e.1 + 2) - o.clock e.1))
    (end_time - o.clock (e.1 + 3)))

theorem clamp_eq (a b : ℚ) :
    (if (if b < a then b else a) < 0 then (0 : ℚ) else if b < a then b else a)
      = max 0 (min a b) := by
  simp only [max_def, min_def]
  split_ifs <;> linarith

theorem waitLoop_sleeps_spec (o : Oracle α) (delay : ℚ → Bool) (pred : α → Bool)
    (end_time polling_rate : ℚ) (fuel : Nat) :
    ∀ (ci si n : Nat) (sleeps : List (Nat × ℚ)) (r : LoopResult α),
      (∀ e ∈ sleeps, sleepClampSpec o end_time polling_rate e) →
      waitLoop o delay pred end_time polling_rate ci si n sleeps fuel = some r →
      ∀ e ∈ r.sleeps, sleepClampSpec o end_time polling_rate e := by
  induction fuel with
  | zero =>
    intro ci si n sleeps r hacc h
    simp [waitLoop] at h
  | succ f ih =>
    intro ci si n sleeps r hacc h
    simp only [waitLoop] at h
    split at h
    · cases h
      exact hacc
    · split at h
      · cases h
        exact hacc
      · rw [clamp_eq] at h
        have hacc' : ∀ e ∈ sleeps ++
            [(ci, max 0 (min (polling_rate - (o.clock (ci + 2) - o.clock ci))
              (end_time - o.clock (ci + 3))))],
            sleepClampSpec o end_time polling_rate e := by
          intro e he
          rcases List.mem_append.mp he with h1 | h2
          · exact hacc e h1
          · rcases List.mem_singleton.mp h2 with rfl
            rfl
        split at h
        · split at h
          · cases h
            exact hacc'
          · cases h
            exact hacc'
        · exact ih _ _ _ _ _ hacc' h

theorem waitLoop_success_eq_pred (o : Oracle α) (delay : ℚ → Bool) (pred : α → Bool)
    (end_time polling_rate : ℚ) (fuel : Nat) :
    ∀ (ci si n : Nat) (sleeps : List (Nat × ℚ)) (r : LoopResult α),
      waitLoop o delay pred end_time polling_rate ci si n sleeps fuel = some r →
      r.success = pred r.value := by
  induction fuel with
  | zero =>
    intro ci si n sleeps r h
    simp [waitLoop] at h
  | succ f ih =>
    intro ci si n sleeps r h
    simp only [waitLoop] at h
    split at h
    · cases h
      simp_all
    · split at h
      · cases h
        simp_all
      · rw [clamp_eq] at h
        split at h
        · split at h
          · cases h
            simp_all
          · cases h
            simp_all
        · exact ih _ _ _ _ _ h

theorem waitLoop_no_cancel (o : Oracle α) (delay : ℚ → Bool) (pred : α → Bool)
    (end_time polling_rate : ℚ) (hdelay : ∀ t, delay t = false) (fuel : Nat) :
    ∀ (ci si n : Nat) (sleeps : List (Nat × ℚ)) (r : LoopResult α),
      waitLoop o delay pred end_time polling_rate ci si n sleeps fuel = some r →
      r.path ≠ ExitPath.canceledSuccess ∧ r.path ≠ ExitPath.canceledFail := by
  induction fuel with
  | zero =>
    intro ci si n sleeps r h
    simp [waitLoop] at h
  | succ f ih =>
    intro ci si n sleeps r h
    simp only [waitLoop] at h
    split at h
    · cases h
      simp
    · split at h
      · cases h
        simp
      · rw [clamp_eq, hdelay] at h
        simp only [Bool.false_eq_true, if_false] at h
        exact ih _ _ _ _ _ h

/-- C1: with `timeout = 0` the poll loop performs exactly one
sample+evaluate cycle, makes no delay call, and returns
`(pred value, value)` for the single sampled value — for every oracle,
every delay primitive and any adequate fuel, assuming only that
`time.time()` is nondecreasing. -/
theorem timeout_zero_single_cycle (o : Oracle α) (delay : ℚ → Bool) (pred : α → Bool)
    (polling_rate : ℚ) (fuel ci si : Nat)
    (hmono : ClockMono o.clock) (hfuel : 1 ≤ fuel) :
    ∃ r, cosmosScriptWaitImplementationGen o delay pred 0 polling_rate fuel ci si = some r ∧
      r.samples = 1 ∧ r.sleeps = [] ∧ r.value = o.sample si ∧
      r.success = pred (o.sample si) := by
  obtain ⟨f, rfl⟩ : ∃ f, fuel = f + 1 := ⟨fuel - 1, by omega⟩
  simp only [cosmosScriptWaitImplementationGen, waitLoop]
  cases hb : pred (o.sample si) with
  | true =>
    simp only [hb, if_true]
    exact ⟨_, rfl, rfl, rfl, rfl, rfl⟩
  | false =>
    have hd : o.clock ci + 0 ≤ o.clock (ci + 1 + 1) := by
      rw [add_zero]
      exact hmono ci (ci + 1 + 1) (by omega)
    simp only [hb, Bool.false_eq_true, if_false, if_pos hd]
    exact ⟨_, rfl, rfl, rfl, rfl, rfl⟩

theorem timeout_zero_single_cycle_witness :
    ∃ r, cosmosScriptWaitImplementationGen (Oracle.mk (fun _ => 0) (fun _ => (37 : ℚ)))
        (fun _ => false) (fun v => decide (v = 37)) 0 1 1 0 0 = some r ∧
      r.samples = 1 ∧ r.sleeps = [] ∧
      r.value = (Oracle.mk (fun _ => 0) (fun _ => (37 : ℚ))).sample 0 ∧
      r.success = decide ((Oracle.mk (fun _ => 0) (fun _ => (37 : ℚ))).sample 0 = 37) :=
  timeout_zero_single_cycle _ _ _ 1 1 0 0 (fun _ _ _ => le_refl 0) (le_refl 1)

/-- C2: every delay call recorded by a poll-loop invocation passes a
duration equal to the polling rate minus that tick's elapsed evaluation
time, clamped above by the remaining time to the deadline
`o.clock ci + timeout` computed once at entry, and clamped below by
zero; consequently a nonzero sleep never extends past the deadline. -/
theorem sleep_durations_clamped (o : Oracle α) (delay : ℚ → Bool) (pred : α → Bool)
    (timeout polling_rate : ℚ) (fuel ci si : Nat) (r : LoopResult α)
    (h : cosmosScriptWaitImplementationGen o delay pred timeout polling_rate fuel ci si = some r)
    (e : Nat × ℚ) (he : e ∈ r.sleeps) :
    e.2 = max 0 (min (polling_rate - (o.clock (e.1 + 2) - o.clock e.1))
      ((o.clock ci + timeout) - o.clock (e.1 + 3))) ∧
    0 ≤ e.2 ∧
    (e.2 ≠ 0 → o.clock (e.1 + 3) + e.2 ≤ o.clock ci + timeout) := by
  simp only [cosmosScriptWaitImplementationGen] at h
  have hs := waitLoop_sleeps_spec o delay pred (o.clock ci + timeout) polling_rate fuel
    (ci + 1) si 0 [] r (by intro e he; cases he) h e he
  unfold sleepClampSpec at hs
  refine ⟨hs, ?_, ?_⟩
  · rw [hs]
    exact le_max_left _ _
  · intro hne
    rcases le_total (min (polling_rate - (o.clock (e.1 + 2) - o.clock e.1))
        ((o.clock ci + timeout) - o.clock (e.1 + 3))) 0 with h0 | h0
    · exact absurd (hs.trans (max_eq_left h0)) hne
    · have hle : e.2 ≤ (o.clock ci + timeout) - o.clock (e.1 + 3) := by
        rw [hs, max_eq_right h0]
        exact min_le_right _ _
      linarith

/-- A concrete world for exercising the poll loop: the clock reads 0 up
to the fifth `time.time()` call and 20 afterwards, and every sample is
the scalar 0. -/
def stepOracle : Oracle ℚ := ⟨fun i => if i ≤ 5 then 0 else 20, fun _ => 0⟩

theorem sleep_durations_clamped_witness :
    ((1, (1/2 : ℚ)) : Nat × ℚ).2 = max 0
      (min ((1/2 : ℚ) - (stepOracle.clock (1 + 2) - stepOracle.clock 1))
        ((stepOracle.clock 0 + 10) - stepOracle.clock (1 + 3))) ∧
    0 ≤ ((1, (1/2 : ℚ)) : Nat × ℚ).2 ∧
    (((1, (1/2 : ℚ)) : Nat × ℚ).2 ≠ 0 →
      stepOracle.clock (1 + 3) + ((1, (1/2 : ℚ)) : Nat × ℚ).2 ≤ stepOracle.clock 0 + 10) :=
  sleep_durations_clamped stepOracle (fun _ => false) (fun _ => false) 10 (1/2) 2 0 0
    ⟨false, 0, .timedOut, [(1, 1/2)], 2, 7, 2⟩
    (by norm_num [cosmosScriptWaitImplementationGen, waitLoop, stepOracle])
    (1, 1/2) (by simp)

/-- C10: `cosmos_script_sleep` returns `False` on every call, so no
invocation of the poll loop composed with it ever exits through the
cancellation branch (the post-cancel re-sample paths are unreachable). -/
theorem cosmos_sleep_never_canceled (o : Oracle α) (pred : α → Bool)
    (timeout polling_rate : ℚ) (fuel ci si : Nat) (r : LoopResult α)
    (h : _cosmos_script_wait_implementation o pred timeout polling_rate fuel ci si = some r) :
    (∀ t, cosmos_script_sleep t = false) ∧
    r.path ≠ ExitPath.canceledSuccess ∧ r.path ≠ ExitPath.canceledFail := by
  refine ⟨fun _ => rfl, ?_⟩
  simp only [_cosmos_script_wait_implementation, cosmosScriptWaitImplementationGen] at h
  exact waitLoop_no_cancel o cosmosDelay pred _ polling_rate (fun _ => rfl) fuel _ _ _ _ r h

theorem cosmos_sleep_never_canceled_witness :
    (∀ t, cosmos_script_sleep t = false) ∧
    (LoopResult.mk false 0 ExitPath.timedOut [(1, 1/2)] 2 7 2 : LoopResult ℚ).path
      ≠ ExitPath.canceledSuccess ∧
    (LoopResult.mk false 0 ExitPath.timedOut [(1, 1/2)] 2 7 2 : LoopResult ℚ).path
      ≠ ExitPath.canceledFail :=
  cosmos_sleep_never_canceled stepOracle (fun _ => false) 10 (1/2) 2 0 0
    ⟨false, 0, .timedOut, [(1, 1/2)], 2, 7, 2⟩
    (by norm_num [_cosmos_script_wait_implementation, cosmosScriptWaitImplementationGen,
      waitLoop, stepOracle, cosmosDelay, cosmos_script_sleep])

/-- C3: the outcome decision matrix.  (a) The poll loop itself never
raises on a false predicate: it returns a structured pair whose success
flag equals the predicate evaluated at the returned value.  (b) Under
WAIT semantics (`_execute_wait`) a false outcome is logged at warning
level and the call returns normally.  (c) Under WAIT_CHECK semantics
(`_wait_check`) a false outcome raises `CheckError` carrying the
formatted message with the comparison text and the observed value.
(d) Under immediate CHECK semantics (`check_eval`) a false predicate
raises `CheckError` with the formatted message. -/
theorem outcome_decision_matrix (g : ℚ → String) (pyS : Sample → String)
    (ev : String → Sample → Bool)
    (parse4 : String → String × String × String × String)
    (o : Oracle Sample)
    (target_name packet_name item_name comparison_to_eval : String)
    (timeout polling_rate : ℚ) (fuel : Nat) (r : LoopResult Sample)
    (hr : cosmos_script_wait_implementation ev o comparison_to_eval timeout polling_rate
      fuel 1 0 = some r) :
    r.success = ev ("value " ++ comparison_to_eval) r.value ∧
    (r.success = false →
      _execute_wait g pyS ev o target_name packet_name item_name "CONVERTED"
          comparison_to_eval timeout polling_rate fuel =
        some [(.warning,
          "WAIT: " ++ _upcase target_name packet_name item_name ++ " " ++ comparison_to_eval
            ++ " failed "
            ++ ("with value == " ++ pyS r.value ++ " after waiting "
              ++ g (o.clock r.nextClock - o.clock 0) ++ " seconds"))]) ∧
    (r.success = false →
      _wait_check g pyS ev parse4 o false
          [.str target_name, .str packet_name, .str item_name, .str comparison_to_eval,
            .num timeout, .num polling_rate] fuel =
        some ([], .error (.checkError
          ("CHECK: " ++ _upcase target_name packet_name item_name ++ " " ++ comparison_to_eval
            ++ " failed "
            ++ ("with value == " ++ pyS r.value ++ " after waiting "
              ++ g (o.clock r.nextClock - o.clock 0) ++ " seconds"))))) ∧
    (∀ value, ev ("value " ++ comparison_to_eval) value = false →
      check_eval pyS ev target_name packet_name item_name comparison_to_eval value =
        .error (.checkError
          ("CHECK: " ++ _upcase target_name packet_name item_name ++ " " ++ comparison_to_eval
            ++ " failed " ++ ("with value == " ++ pyS value)))) := by
  refine ⟨?_, ?_, ?_, ?_⟩
  · have h' := hr
    simp only [cosmos_script_wait_implementation, _cosmos_script_wait_implementation,
      cosmosScriptWaitImplementationGen] at h'
    exact waitLoop_success_eq_pred o cosmosDelay _ _ polling_rate fuel _ _ _ _ r h'
  · intro hs
    simp only [_execute_wait, hr, hs, Bool.false_eq_true, if_false]
  · intro hs
    simp only [_wait_check, wait_check_process_args, PyVal.asStr, PyVal.q, hr, hs,
      Bool.false_eq_true, if_false]
  · intro value hv
    simp only [check_eval, hv, Bool.false_eq_true, if_false]

/-- A Sample-stream world with the same step clock as `stepOracle`. -/
def stepOracleS : Oracle Sample := ⟨fun i => if i ≤ 5 then 0 else 20, fun _ => .flt 0⟩

theorem outcome_decision_matrix_witness :
    (LoopResult.mk false (Sample.flt 0) ExitPath.timedOut [(2, 1/2)] 2 8 2).success
      = (fun (_ : String) (_ : Sample) => false) ("value " ++ "> 1")
          (LoopResult.mk false (Sample.flt 0) ExitPath.timedOut [(2, 1/2)] 2 8 2).value ∧
    ((LoopResult.mk false (Sample.flt 0) ExitPath.timedOut [(2, 1/2)] 2 8 2).success = false →
      _execute_wait (fun _ => "T") (fun _ => "0") (fun _ _ => false) stepOracleS
          "tgt" "pkt" "itm" "CONVERTED" "> 1" 10 (1/2) 2 =
        some [(.warning,
          "WAIT: " ++ _upcase "tgt" "pkt" "itm" ++ " " ++ "> 1" ++ " failed "
            ++ ("with value == " ++ "0" ++ " after waiting "
              ++ "T" ++ " seconds"))]) ∧
    ((LoopResult.mk false (Sample.flt 0) ExitPath.timedOut [(2, 1/2)] 2 8 2).success = false →
      _wait_check (fun _ => "T") (fun _ => "0") (fun _ _ => false)
          (fun _ => ("", "", "", "")) stepOracleS false
          [.str "tgt", .str "pkt", .str "itm", .str "> 1", .num 10, .num (1/2)] 2 =
        some ([], .error (.checkError
          ("CHECK: " ++ _upcase "tgt" "pkt" "itm" ++ " " ++ "> 1" ++ " failed "
            ++ ("with value == " ++ "0" ++ " after waiting "
              ++ "T" ++ " seconds"))))) ∧
    (∀ value, (fun (_ : String) (_ : Sample) => false) ("value " ++ "> 1") value = false →
      check_eval (fun _ => "0") (fun _ _ => false) "tgt" "pkt" "itm" "> 1" value =
        .error (.checkError
          ("CHECK: " ++ _upcase "tgt" "pkt" "itm" ++ " " ++ "> 1" ++ " failed "
            ++ ("with value == " ++ "0")))) := by
  have h := outcome_decision_matrix (fun _ => "T") (fun _ => "0") (fun _ _ => false)
    (fun _ => ("", "", "", "")) stepOracleS "tgt" "pkt" "itm" "> 1" 10 (1/2) 2
    ⟨false, .flt 0, .timedOut, [(2, 1/2)], 2, 8, 2⟩
    (by norm_num [cosmos_script_wait_implementation, _cosmos_script_wait_implementation,
      cosmosScriptWaitImplementationGen, waitLoop, stepOracleS, cosmosDelay,
      cosmos_script_sleep])
  simpa using h

/-- C4: the tolerance predicate is boundary-inclusive on both paths.
The immediate-check test (`toleranceCheck`, applied by
`_check_tolerance` to the resolver's `|tolerance|`) and the polling-path
predicate (`tolerance_exp_pred`) hold exactly on the closed interval
`[expected - tol, expected + tol]`; the boundaries pass, and any
`δ > 0` beyond either boundary fails. -/
theorem tolerance_boundary_inclusive (expected_value tolerance value δ : ℚ) :
    (toleranceCheck expected_value tolerance value = true ↔
      expected_value - tolerance ≤ value ∧ value ≤ expected_value + tolerance) ∧
    (tolerance_exp_pred expected_value tolerance (.flt value) = true ↔
      expected_value - |tolerance| ≤ value ∧ value ≤ |tolerance| + expected_value) ∧
    toleranceCheck expected_value |tolerance| (expected_value - |tolerance|) = true ∧
    toleranceCheck expected_value |tolerance| (expected_value + |tolerance|) = true ∧
    tolerance_exp_pred expected_value tolerance (.flt (expected_value - |tolerance|)) = true ∧
    tolerance_exp_pred expected_value tolerance (.flt (|tolerance| + expected_value)) = true ∧
    (0 < δ →
      toleranceCheck expected_value |tolerance| (expected_value + |tolerance| + δ) = false ∧
      toleranceCheck expected_value |tolerance| (expected_value - |tolerance| - δ) = false ∧
      tolerance_exp_pred expected_value tolerance (.flt (|tolerance| + expected_value + δ)) = false ∧
      tolerance_exp_pred expected_value tolerance (.flt (expected_value - |tolerance| - δ)) = false) := by
  have habs : (0 : ℚ) ≤ |tolerance| := abs_nonneg tolerance
  refine ⟨?_, ?_, ?_, ?_, ?_, ?_, fun hδ => ⟨?_, ?_, ?_, ?_⟩⟩
  · simp [toleranceCheck, ge_iff_le]
  · simp [tolerance_exp_pred, ge_iff_le]
  · simp only [toleranceCheck, Bool.and_eq_true, decide_eq_true_eq, ge_iff_le]
    constructor <;> linarith
  · simp only [toleranceCheck, Bool.and_eq_true, decide_eq_true_eq, ge_iff_le]
    constructor <;> linarith
  · simp only [tolerance_exp_pred, Bool.and_eq_true, decide_eq_true_eq, ge_iff_le]
    constructor <;> linarith
  · simp only [tolerance_exp_pred, Bool.and_eq_true, decide_eq_true_eq, ge_iff_le]
    constructor <;> linarith
  · simp only [toleranceCheck, Bool.and_eq_false_iff, decide_eq_false_iff_not, not_le, ge_iff_le]
    right
    linarith
  · simp only [toleranceCheck, Bool.and_eq_false_iff, decide_eq_false_iff_not, not_le, ge_iff_le]
    left
    linarith
  · simp only [tolerance_exp_pred, Bool.and_eq_false_iff, decide_eq_false_iff_not, not_le, ge_iff_le]
    right
    linarith
  · simp only [tolerance_exp_pred, Bool.and_eq_false_iff, decide_eq_false_iff_not, not_le, ge_iff_le]
    left
    linarith

theorem tolerance_boundary_inclusive_witness :
    (toleranceCheck 100 5 100 = true ↔
      (100 : ℚ) - 5 ≤ 100 ∧ (100 : ℚ) ≤ 100 + 5) ∧
    (tolerance_exp_pred 100 5 (.flt 100) = true ↔
      (100 : ℚ) - |(5 : ℚ)| ≤ 100 ∧ (100 : ℚ) ≤ |(5 : ℚ)| + 100) ∧
    toleranceCheck 100 |(5 : ℚ)| (100 - |(5 : ℚ)|) = true ∧
    toleranceCheck 100 |(5 : ℚ)| (100 + |(5 : ℚ)|) = true ∧
    tolerance_exp_pred 100 5 (.flt (100 - |(5 : ℚ)|)) = true ∧
    tolerance_exp_pred 100 5 (.flt (|(5 : ℚ)| + 100)) = true ∧
    ((0 : ℚ) < 1 →
      toleranceCheck 100 |(5 : ℚ)| (100 + |(5 : ℚ)| + 1) = false ∧
      toleranceCheck 100 |(5 : ℚ)| (100 - |(5 : ℚ)| - 1) = false ∧
      tolerance_exp_pred 100 5 (.flt (|(5 : ℚ)| + 100 + 1)) = false ∧
      tolerance_exp_pred 100 5 (.flt (100 - |(5 : ℚ)| - 1)) = false) :=
  tolerance_boundary_inclusive 100 5 100 1

/-- C5 counterexample: `array_tolerance_process_args` broadcasts the
supplied scalar tolerance as-is — it takes no absolute value itself —
so with a negative scalar tolerance the returned tolerance positions
are negative, not `|scalarTolerance|`. -/
theorem array_tolerance_no_abs_counterexample :
    array_tolerance_process_args 2 (.num 5) (.num (-3)) "check_tolerance"
      = .ok ([5, 5], [-3, -3]) ∧ (-3 : ℚ) < 0 ∧ (-3 : ℚ) ≠ |(-3 : ℚ)| := by
  refine ⟨rfl, by norm_num, by norm_num⟩

/-- C5 (amended): with scalar expected and scalar tolerance the
normalizer returns two length-N sequences all equal to
`(scalarExpected, scalarTolerance)` — the tolerance broadcast as
supplied, hence non-negative exactly when the supplied scalar is
(callers pass `abs(tolerance)`) — and a supplied sequence whose length
differs from N raises the array-size `RuntimeError`. -/
theorem array_tolerance_normalize (N : Nat) (e t : ℚ) (fn : String) (tol2 : PyVal) :
    array_tolerance_process_args N (.num e) (.num t) fn
      = .ok (List.replicate N e, List.replicate N t) ∧
    (0 ≤ t → ∀ x ∈ List.replicate N t, 0 ≤ x) ∧
    array_tolerance_process_args 3 (.lst [1, 2]) tol2 fn
      = .error (.runtimeError
        ("ERROR: Invalid array size for expected_value passed to " ++ fn ++ "()")) := by
  refine ⟨rfl, ?_, ?_⟩
  · intro ht x hx
    rw [List.eq_of_mem_replicate hx]
    exact ht
  · rfl

theorem array_tolerance_normalize_witness :
    array_tolerance_process_args 4 (.num 5) (.num 3) "wait_tolerance"
      = .ok (List.replicate 4 5, List.replicate 4 3) ∧
    ((0 : ℚ) ≤ 3 → ∀ x ∈ List.replicate 4 (3 : ℚ), 0 ≤ x) ∧
    array_tolerance_process_args 3 (.lst [1, 2]) (.num 1) "wait_tolerance"
      = .error (.runtimeError
        ("ERROR: Invalid array size for expected_value passed to " ++ "wait_tolerance" ++ "()")) :=
  array_tolerance_normalize 4 5 3 "wait_tolerance" (.num 1)

/-- Spec-side rendering of the element-`i` line of the vector tolerance
message, marked by that element's own pass/fail status. -/
def toleranceLineFor (g : ℚ → String) (check_label : String) (i : Nat) (e t v : ℚ) : String :=
  if toleranceCheck e t v then
    check_label ++ "[" ++ toString i ++ "]" ++ " was within #"
      ++ ("range " ++ g (e - t) ++ " to " ++ g (e + t) ++ " with value == " ++ g v) ++ "\n"
  else
    check_label ++ "[" ++ toString i ++ "]" ++ " failed to be within "
      ++ ("range " ++ g (e - t) ++ " to " ++ g (e + t) ++ " with value == " ++ g v) ++ "\n"

/-- Concatenation of a list of message lines. -/
def joinAll : List String → String
  | [] => ""
  | s :: rest => s ++ joinAll rest

theorem toleranceLines_cons_fst (g : ℚ → String) (lbl : String) (i0 : Nat)
    (v1 e1 t1 : ℚ) (vs es ts : List ℚ) :
    (toleranceLines g lbl i0 (v1 :: vs) (e1 :: es) (t1 :: ts)).1 =
      toleranceLineFor g lbl i0 e1 t1 v1 ++ (toleranceLines g lbl (i0 + 1) vs es ts).1 := by
  simp only [toleranceLines, toleranceLineFor]
  cases toleranceCheck e1 t1 v1 <;> simp [String.append_assoc]

theorem toleranceLines_cons_snd (g : ℚ → String) (lbl : String) (i0 : Nat)
    (v1 e1 t1 : ℚ) (vs es ts : List ℚ) :
    (toleranceLines g lbl i0 (v1 :: vs) (e1 :: es) (t1 :: ts)).2 =
      (toleranceCheck e1 t1 v1 && (toleranceLines g lbl (i0 + 1) vs es ts).2) := by
  simp only [toleranceLines]
  cases toleranceCheck e1 t1 v1 <;> simp

theorem toleranceLines_all (g : ℚ → String) (lbl : String) :
    ∀ (v e t : List ℚ) (i0 : Nat), e.length = v.length → t.length = v.length →
      ((toleranceLines g lbl i0 v e t).2 = true ↔
        ∀ k, k < v.length → toleranceCheck (e.getD k 0) (t.getD k 0) (v.getD k 0) = true)
  | [], e, t, i0, he, ht => by
    simp [toleranceLines]
  | v1 :: vs, [], t, i0, he, ht => by simp at he
  | v1 :: vs, e1 :: es, [], i0, he, ht => by simp at ht
  | v1 :: vs, e1 :: es, t1 :: ts, i0, he, ht => by
    have he' : es.length = vs.length := by simpa using he
    have ht' : ts.length = vs.length := by simpa using ht
    have ih := toleranceLines_all g lbl vs es ts (i0 + 1) he' ht'
    rw [toleranceLines_cons_snd, Bool.and_eq_true, ih]
    constructor
    · intro hall k hk
      cases k with
      | zero => simpa using hall.1
      | succ k' =>
        have := hall.2 k' (by simpa using hk)
        simpa using this
    · intro hall
      refine ⟨by simpa using hall 0 (Nat.succ_pos _), ?_⟩
      intro k hk
      have := hall (k + 1) (by simpa using hk)
      simpa using this

theorem toleranceLines_join (g : ℚ → String) (lbl : String) :
    ∀ (v e t : List ℚ) (i0 : Nat), e.length = v.length → t.length = v.length →
      (toleranceLines g lbl i0 v e t).1 =
        joinAll ((List.range v.length).map (fun k =>
          toleranceLineFor g lbl (i0 + k) (e.getD k 0) (t.getD k 0) (v.getD k 0)))
  | [], e, t, i0, he, ht => by simp [toleranceLines, joinAll]
  | v1 :: vs, [], t, i0, he, ht => by simp at he
  | v1 :: vs, e1 :: es, [], i0, he, ht => by simp at ht
  | v1 :: vs, e1 :: es, t1 :: ts, i0, he, ht => by
    have he' : es.length = vs.length := by simpa using he
    have ht' : ts.length = vs.length := by simpa using ht
    have ih := toleranceLines_join g lbl vs es ts (i0 + 1) he' ht'
    rw [toleranceLines_cons_fst, ih]
    simp only [List.length_cons, List.range_succ_eq_map, List.map_cons, List.map_map, joinAll]
    have hshift : ∀ k, i0 + 1 + k = i0 + (k + 1) := by omega
    simp [Function.comp_def, hshift, List.getElem?_cons_succ, List.getD_cons_succ]

/-- C6: vector predicate AND law.  The aggregate flag computed by the
vector tolerance check is true iff every element's inclusive bound
check is true; the produced message is the concatenation of one line
per element, each marked by that element's own satisfied/failed status;
and under CHECK semantics (`_check_tolerance` on a vector sample) the
whole call raises `CheckError` with that same message exactly when the
aggregate is false, logging it at info level otherwise. -/
theorem vector_predicate_and_law (g : ℚ → String) (lbl : String)
    (parse3 : String → String × String × String) (o : Oracle Sample)
    (target_name packet_name item_name : String) (e0 t0 : ℚ) (l : List ℚ)
    (hsamp : o.sample 0 = .arr l)
    (v e t : List ℚ) (he : e.length = v.length) (ht : t.length = v.length) (i0 : Nat) :
    ((toleranceLines g lbl i0 v e t).2 = true ↔
      ∀ k, k < v.length →
        toleranceCheck (e.getD k 0) (t.getD k 0) (v.getD k 0) = true) ∧
    ((toleranceLines g lbl i0 v e t).1 =
      joinAll ((List.range v.length).map (fun k =>
        toleranceLineFor g lbl (i0 + k) (e.getD k 0) (t.getD k 0) (v.getD k 0)))) ∧
    (_check_tolerance g parse3 o
        [.str target_name, .str packet_name, .str item_name, .num e0, .num t0] =
      if (toleranceLines g ("CHECK: " ++ _upcase target_name packet_name item_name) 0 l
          (List.replicate l.length e0) (List.replicate l.length |t0|)).2 then
        .ok [(.info, (toleranceLines g ("CHECK: " ++ _upcase target_name packet_name item_name)
          0 l (List.replicate l.length e0) (List.replicate l.length |t0|)).1)]
      else
        .error (.checkError (toleranceLines g
          ("CHECK: " ++ _upcase target_name packet_name item_name) 0 l
          (List.replicate l.length e0) (List.replicate l.length |t0|)).1)) := by
  refine ⟨toleranceLines_all g lbl v e t i0 he ht,
    toleranceLines_join g lbl v e t i0 he ht, ?_⟩
  simp only [_check_tolerance, check_tolerance_process_args, pyAbs, PyVal.asStr, PyVal.q,
    hsamp, array_tolerance_process_args]
  rfl

/-- A world whose telemetry stream is the constant vector [1, 4/5, 1]. -/
def arrOracle : Oracle Sample := ⟨fun _ => 0, fun _ => .arr [1, 4/5, 1]⟩

theorem vector_predicate_and_law_witness :
    ((toleranceLines (fun _ => "N") "L" 0 [1, 4/5, 1] [1, 1, 1] [1/10, 1/10, 1/10]).2 = true ↔
      ∀ k, k < ([1, 4/5, 1] : List ℚ).length →
        toleranceCheck (([1, 1, 1] : List ℚ).getD k 0)
          (([1/10, 1/10, 1/10] : List ℚ).getD k 0)
          (([1, 4/5, 1] : List ℚ).getD k 0) = true) ∧
    ((toleranceLines (fun _ => "N") "L" 0 [1, 4/5, 1] [1, 1, 1] [1/10, 1/10, 1/10]).1 =
      joinAll ((List.range ([1, 4/5, 1] : List ℚ).length).map (fun k =>
        toleranceLineFor (fun _ => "N") "L" (0 + k) (([1, 1, 1] : List ℚ).getD k 0)
          (([1/10, 1/10, 1/10] : List ℚ).getD k 0) (([1, 4/5, 1] : List ℚ).getD k 0)))) ∧
    (_check_tolerance (fun _ => "N") (fun _ => ("a", "b", "c")) arrOracle
        [.str "tgt", .str "pkt", .str "itm", .num 1, .num (1/10)] =
      if (toleranceLines (fun _ => "N") ("CHECK: " ++ _upcase "tgt" "pkt" "itm") 0 [1, 4/5, 1]
          (List.replicate ([1, 4/5, 1] : List ℚ).length 1)
          (List.replicate ([1, 4/5, 1] : List ℚ).length |(1/10 : ℚ)|)).2 then
        .ok [(.info, (toleranceLines (fun _ => "N") ("CHECK: " ++ _upcase "tgt" "pkt" "itm")
          0 [1, 4/5, 1] (List.replicate ([1, 4/5, 1] : List ℚ).length 1)
          (List.replicate ([1, 4/5, 1] : List ℚ).length |(1/10 : ℚ)|)).1)]
      else
        .error (.checkError (toleranceLines (fun _ => "N")
          ("CHECK: " ++ _upcase "tgt" "pkt" "itm") 0 [1, 4/5, 1]
          (List.replicate ([1, 4/5, 1] : List ℚ).length 1)
          (List.replicate ([1, 4/5, 1] : List ℚ).length |(1/10 : ℚ)|)).1)) :=
  vector_predicate_and_law (fun _ => "N") "L" (fun _ => ("a", "b", "c")) arrOracle
    "tgt" "pkt" "itm" 1 (1/10) [1, 4/5, 1] rfl
    [1, 4/5, 1] [1, 1, 1] [1/10, 1/10, 1/10] rfl rfl 0

/-- A world with a constant zero clock and constant scalar sample 1. -/
def flatOracleS : Oracle Sample := ⟨fun _ => 0, fun _ => .flt 1⟩

/-- C7 (code bug): the Python return value of each wait-family entry
point, evaluated on a concrete world.  `wait` and `wait_raw` discard
the value computed by `wait_process_args` (no `return` statement, lines
141-156), and `wait_check_tolerance` / `wait_check_tolerance_raw`
discard the `time_float` returned by `_wait_check_tolerance` (lines
316-320), so all four return `None`; `wait_tolerance`, `wait_check`,
`wait_expression` and `wait_packet` do return the elapsed time. -/
theorem wait_family_return_values :
    Option.map Prod.snd (wait (fun _ => "T") (fun _ => "1") (fun _ _ => true)
        (fun _ => ("a", "b", "c", "> 1")) (fun _ => none) flatOracleS [.num 5] 1)
      = some (.ok none) ∧
    Option.map Prod.snd (wait_raw (fun _ => "T") (fun _ => "1") (fun _ _ => true)
        (fun _ => ("a", "b", "c", "> 1")) (fun _ => none) flatOracleS [.num 5] 1)
      = some (.ok none) ∧
    Option.map Prod.snd (wait_check_tolerance (fun _ => "T") (fun _ _ => true)
        (fun _ => ("a", "b", "c")) flatOracleS [.str "s", .num 1, .num (1/10), .num 7] 1)
      = some (.ok none) ∧
    Option.map Prod.snd (wait_check_tolerance_raw (fun _ => "T") (fun _ _ => true)
        (fun _ => ("a", "b", "c")) flatOracleS [.str "s", .num 1, .num (1/10), .num 7] 1)
      = some (.ok none) ∧
    Option.map Prod.snd (_wait_check_tolerance (fun _ => "T") (fun _ _ => true)
        (fun _ => ("a", "b", "c")) flatOracleS false [.str "s", .num 1, .num (1/10), .num 7] 1)
      = some (.ok (some 0)) ∧
    Option.map Prod.snd (wait_tolerance (fun _ => "T") (fun _ _ => true)
        (fun _ => ("a", "b", "c")) flatOracleS [.str "s", .num 1, .num (1/10), .num 7] 1)
      = some (.ok (some 0)) ∧
    Option.map Prod.snd (wait_check (fun _ => "T") (fun _ => "1") (fun _ _ => true)
        (fun _ => ("a", "b", "c", "> 1")) flatOracleS [.str "s", .num 7] 1)
      = some (.ok (some 0)) ∧
    Option.map Prod.snd (wait_expression (fun _ => "T") (fun _ => true) (fun _ => 0)
        "x > 1" 7 (1/4) 1)
      = some (.ok (some 0)) ∧
    Option.map Prod.snd (wait_packet (fun _ => "T") (fun _ => "D") (fun _ _ => true)
        flatOracleS "tgt" "pkt" 1 7 (1/4) 1)
      = some (.ok (some 0)) := by
  refine ⟨?_, ?_, ?_, ?_, ?_, ?_, ?_, ?_, ?_⟩
  · norm_num [wait, wait_process_args, pyFloatOf, cosmos_script_sleep, flatOracleS]
  · norm_num [wait_raw, wait_process_args, pyFloatOf, cosmos_script_sleep, flatOracleS]
  · norm_num [wait_check_tolerance, _wait_check_tolerance, wait_tolerance_process_args,
      pyAbs, PyVal.q, PyVal.asStr, cosmos_script_wait_implementation_tolerance,
      _cosmos_script_wait_implementation, cosmosScriptWaitImplementationGen, waitLoop,
      tolerance_exp_pred, flatOracleS, Sample.q, cosmosDelay, cosmos_script_sleep]
  · norm_num [wait_check_tolerance_raw, _wait_check_tolerance, wait_tolerance_process_args,
      pyAbs, PyVal.q, PyVal.asStr, cosmos_script_wait_implementation_tolerance,
      _cosmos_script_wait_implementation, cosmosScriptWaitImplementationGen, waitLoop,
      tolerance_exp_pred, flatOracleS, Sample.q, cosmosDelay, cosmos_script_sleep]
  · norm_num [_wait_check_tolerance, wait_tolerance_process_args,
      pyAbs, PyVal.q, PyVal.asStr, cosmos_script_wait_implementation_tolerance,
      _cosmos_script_wait_implementation, cosmosScriptWaitImplementationGen, waitLoop,
      tolerance_exp_pred, flatOracleS, Sample.q, cosmosDelay, cosmos_script_sleep]
  · norm_num [wait_tolerance, _wait_tolerance, wait_tolerance_process_args,
      pyAbs, PyVal.q, PyVal.asStr, cosmos_script_wait_implementation_tolerance,
      _cosmos_script_wait_implementation, cosmosScriptWaitImplementationGen, waitLoop,
      tolerance_exp_pred, flatOracleS, Sample.q, cosmosDelay, cosmos_script_sleep]
  · norm_num [wait_check, _wait_check, wait_check_process_args,
      PyVal.q, PyVal.asStr, cosmos_script_wait_implementation,
      _cosmos_script_wait_implementation, cosmosScriptWaitImplementationGen, waitLoop,
      flatOracleS, cosmosDelay, cosmos_script_sleep]
  · norm_num [wait_expression, cosmos_script_wait_implementation_expression, exprWaitLoop,
      cosmosDelay, cosmos_script_sleep]
  · norm_num [wait_packet, _wait_packet, cosmos_script_wait_implementation,
      _cosmos_script_wait_implementation, cosmosScriptWaitImplementationGen, waitLoop,
      flatOracleS, Sample.q, cosmosDelay, cosmos_script_sleep]

theorem check_process_args_arity (parse4 : String → String × String × String × String)
    (args : List PyVal) (fn : String) (h1 : args.length ≠ 1) (h4 : args.length ≠ 4) :
    check_process_args parse4 args fn = .error (.runtimeError (arityMsg args.length fn)) := by
  rcases args with _ | ⟨a, _ | ⟨b, _ | ⟨c, _ | ⟨d, _ | ⟨e, rest⟩⟩⟩⟩⟩
  · rfl
  · exact absurd rfl h1
  · rfl
  · rfl
  · exact absurd rfl h4
  · rfl

theorem check_tolerance_process_args_arity (parse3 : String → String × String × String)
    (args : List PyVal) (fn : String) (h3 : args.length ≠ 3) (h5 : args.length ≠ 5) :
    check_tolerance_process_args parse3 args fn
      = .error (.runtimeError (arityMsg args.length fn)) := by
  rcases args with _ | ⟨a, _ | ⟨b, _ | ⟨c, _ | ⟨d, _ | ⟨e, _ | ⟨f, rest⟩⟩⟩⟩⟩⟩
  · rfl
  · rfl
  · rfl
  · exact absurd rfl h3
  · rfl
  · exact absurd rfl h5
  · rfl

theorem wait_check_process_args_arity (parse4 : String → String × String × String × String)
    (args : List PyVal) (fn : String) (h2 : args.length ≠ 2) (h3 : args.length ≠ 3)
    (h5 : args.length ≠ 5) (h6 : args.length ≠ 6) :
    wait_check_process_args parse4 args fn
      = .error (.runtimeError (arityMsg args.length fn)) := by
  rcases args with _ | ⟨a, _ | ⟨b, _ | ⟨c, _ | ⟨d, _ | ⟨e, _ | ⟨f, _ | ⟨x, rest⟩⟩⟩⟩⟩⟩⟩
  · rfl
  · rfl
  · exact absurd rfl h2
  · exact absurd rfl h3
  · rfl
  · exact absurd rfl h5
  · exact absurd rfl h6
  · rfl

theorem wait_tolerance_process_args_arity (parse3 : String → String × String × String)
    (args : List PyVal) (fn : String) (h4 : args.length ≠ 4) (h5 : args.length ≠ 5)
    (h6 : args.length ≠ 6) (h7 : args.length ≠ 7) :
    wait_tolerance_process_args parse3 args fn
      = .error (.runtimeError (arityMsg args.length fn)) := by
  rcases args with _ | ⟨a, _ | ⟨b, _ | ⟨c, _ | ⟨d, _ | ⟨e, _ | ⟨f, _ | ⟨x, _ | ⟨y, rest⟩⟩⟩⟩⟩⟩⟩⟩
  · rfl
  · rfl
  · rfl
  · rfl
  · exact absurd rfl h4
  · exact absurd rfl h5
  · exact absurd rfl h6
  · exact absurd rfl h7
  · rfl

theorem wait_process_args_arity (g : ℚ → String) (pyS : Sample → String)
    (ev : String → Sample → Bool) (parse4 : String → String × String × String × String)
    (pyfloat : String → Option ℚ) (o : Oracle Sample) (args : List PyVal)
    (fn vt : String) (fuel : Nat)
    (h0 : args.length ≠ 0) (h1 : args.length ≠ 1) (h2 : args.length ≠ 2)
    (h3 : args.length ≠ 3) (h5 : args.length ≠ 5) (h6 : args.length ≠ 6) :
    wait_process_args g pyS ev parse4 pyfloat o args fn vt fuel
      = some ([], .error (.runtimeError (arityMsg args.length fn))) := by
  rcases args with _ | ⟨a, _ | ⟨b, _ | ⟨c, _ | ⟨d, _ | ⟨e, _ | ⟨f, _ | ⟨x, rest⟩⟩⟩⟩⟩⟩⟩
  · exact absurd rfl h0
  · exact absurd rfl h1
  · exact absurd rfl h2
  · exact absurd rfl h3
  · rfl
  · exact absurd rfl h5
  · exact absurd rfl h6
  · rfl

/-- C8 counterexample: for the `_raw` variants the arity-error message
names the shared base implementation's literal, not the function the
caller invoked: `check_tolerance_raw` with 2 arguments reports
`check_tolerance()`, and `wait_check_raw` with 1 argument reports
`wait_check()`. -/
theorem arity_raw_name_counterexample :
    check_tolerance_raw (fun _ => "N") (fun _ => ("a", "b", "c")) flatOracleS
        [.str "s", .num 1]
      = .error (.runtimeError
          "ERROR: Invalid number of arguments (2) passed to check_tolerance()") ∧
    wait_check_raw (fun _ => "N") (fun _ => "1") (fun _ _ => true)
        (fun _ => ("a", "b", "c", "> 1")) flatOracleS [.str "s"] 1
      = some ([], .error (.runtimeError
          "ERROR: Invalid number of arguments (1) passed to wait_check()")) ∧
    "ERROR: Invalid number of arguments (2) passed to check_tolerance()"
      ≠ "ERROR: Invalid number of arguments (2) passed to check_tolerance_raw()" ∧
    "ERROR: Invalid number of arguments (1) passed to wait_check()"
      ≠ "ERROR: Invalid number of arguments (1) passed to wait_check_raw()" :=
  ⟨rfl, rfl, by decide, by decide⟩

/-- C8 (amended): every check/wait-family entry point raises the
arity `RuntimeError` for argument counts outside its family's fixed
arities, and the message reports the actual count together with the
family name hard-coded at the resolver call site: `check`,
`check_tolerance` and `wait_check` for both the plain and `_raw`
variants, while `wait_tolerance_raw`, `wait` and `wait_raw` report
their own names. -/
theorem arity_error_matrix (g : ℚ → String) (pyS : Sample → String)
    (ev : String → Sample → Bool)
    (parse4 : String → String × String × String × String)
    (parse3 : String → String × String × String)
    (pyfloat : String → Option ℚ) (o : Oracle Sample) (args : List PyVal) (fuel : Nat) :
    (args.length ≠ 1 → args.length ≠ 4 →
      check_process_args parse4 args "check"
        = .error (.runtimeError (arityMsg args.length "check")) ∧
      check pyS ev parse4 o args
        = .error (.runtimeError (arityMsg args.length "check")) ∧
      check_raw pyS ev parse4 o args
        = .error (.runtimeError (arityMsg args.length "check"))) ∧
    (args.length ≠ 3 → args.length ≠ 5 →
      check_tolerance g parse3 o args
        = .error (.runtimeError (arityMsg args.length "check_tolerance")) ∧
      check_tolerance_raw g parse3 o args
        = .error (.runtimeError (arityMsg args.length "check_tolerance"))) ∧
    (args.length ≠ 2 → args.length ≠ 3 → args.length ≠ 5 → args.length ≠ 6 →
      wait_check g pyS ev parse4 o args fuel
        = some ([], .error (.runtimeError (arityMsg args.length "wait_check"))) ∧
      wait_check_raw g pyS ev parse4 o args fuel
        = some ([], .error (.runtimeError (arityMsg args.length "wait_check")))) ∧
    (args.length ≠ 4 → args.length ≠ 5 → args.length ≠ 6 → args.length ≠ 7 →
      wait_tolerance g ev parse3 o args fuel
        = some ([], .error (.runtimeError (arityMsg args.length "wait_tolerance"))) ∧
      wait_tolerance_raw g ev parse3 o args fuel
        = some ([], .error (.runtimeError
            (arityMsg args.length ("wait_tolerance" ++ "_raw"))))) ∧
    (args.length ≠ 0 → args.length ≠ 1 → args.length ≠ 2 → args.length ≠ 3 →
      args.length ≠ 5 → args.length ≠ 6 →
      wait g pyS ev parse4 pyfloat o args fuel
        = some ([], .error (.runtimeError (arityMsg args.length "wait"))) ∧
      wait_raw g pyS ev parse4 pyfloat o args fuel
        = some ([], .error (.runtimeError (arityMsg args.length "wait_raw")))) := by
  refine ⟨?_, ?_, ?_, ?_, ?_⟩
  · intro h1 h4
    have hres := check_process_args_arity parse4 args "check" h1 h4
    refine ⟨hres, ?_, ?_⟩
    · unfold check _check
      rw [hres]
      rfl
    · unfold check_raw _check
      rw [hres]
      rfl
  · intro h3 h5
    have hres := check_tolerance_process_args_arity parse3 args "check_tolerance" h3 h5
    constructor
    · unfold check_tolerance _check_tolerance
      rw [hres]
      rfl
    · unfold check_tolerance_raw _check_tolerance
      rw [hres]
      rfl
  · intro h2 h3 h5 h6
    have hres := wait_check_process_args_arity parse4 args "wait_check" h2 h3 h5 h6
    constructor
    · unfold wait_check _wait_check
      rw [hres]
    · unfold wait_check_raw _wait_check
      rw [hres]
  · intro h4 h5 h6 h7
    constructor
    · have hres := wait_tolerance_process_args_arity parse3 args "wait_tolerance" h4 h5 h6 h7
      unfold wait_tolerance _wait_tolerance
      simp only [Bool.false_eq_true, if_false, hres]
    · have hres := wait_tolerance_process_args_arity parse3 args
        ("wait_tolerance" ++ "_raw") h4 h5 h6 h7
      unfold wait_tolerance_raw _wait_tolerance
      simp only [if_true, hres]
  · intro h0 h1 h2 h3 h5 h6
    constructor
    · have hres := wait_process_args_arity g pyS ev parse4 pyfloat o args "wait" "CONVERTED"
        fuel h0 h1 h2 h3 h5 h6
      unfold wait
      rw [hres]
    · have hres := wait_process_args_arity g pyS ev parse4 pyfloat o args "wait_raw" "RAW"
        fuel h0 h1 h2 h3 h5 h6
      unfold wait_raw
      rw [hres]

theorem arity_error_matrix_witness :
    check_process_args (fun _ => ("a", "b", "c", "> 1"))
        [.num 1, .num 1, .num 1, .num 1, .num 1, .num 1, .num 1, .num 1] "check"
      = .error (.runtimeError (arityMsg
          ([.num 1, .num 1, .num 1, .num 1, .num 1, .num 1, .num 1,
            .num 1] : List PyVal).length "check")) ∧
    check_tolerance_raw (fun _ => "N") (fun _ => ("a", "b", "c")) flatOracleS
        [.num 1, .num 1, .num 1, .num 1, .num 1, .num 1, .num 1, .num 1]
      = .error (.runtimeError (arityMsg
          ([.num 1, .num 1, .num 1, .num 1, .num 1, .num 1, .num 1,
            .num 1] : List PyVal).length "check_tolerance")) ∧
    wait_check_raw (fun _ => "N") (fun _ => "1") (fun _ _ => true)
        (fun _ => ("a", "b", "c", "> 1")) flatOracleS
        [.num 1, .num 1, .num 1, .num 1, .num 1, .num 1, .num 1, .num 1] 1
      = some ([], .error (.runtimeError (arityMsg
          ([.num 1, .num 1, .num 1, .num 1, .num 1, .num 1, .num 1,
            .num 1] : List PyVal).length "wait_check"))) ∧
    wait_tolerance_raw (fun _ => "N") (fun _ _ => true) (fun _ => ("a", "b", "c"))
        flatOracleS [.num 1, .num 1, .num 1, .num 1, .num 1, .num 1, .num 1, .num 1] 1
      = some ([], .error (.runtimeError (arityMsg
          ([.num 1, .num 1, .num 1, .num 1, .num 1, .num 1, .num 1,
            .num 1] : List PyVal).length ("wait_tolerance" ++ "_raw")))) ∧
    wait (fun _ => "N") (fun _ => "1") (fun _ _ => true)
        (fun _ => ("a", "b", "c", "> 1")) (fun _ => none) flatOracleS
        [.num 1, .num 1, .num 1, .num 1, .num 1, .num 1, .num 1, .num 1] 1
      = some ([], .error (.runtimeError (arityMsg
          ([.num 1, .num 1, .num 1, .num 1, .num 1, .num 1, .num 1,
            .num 1] : List PyVal).length "wait"))) := by
  have h := arity_error_matrix (fun _ => "N") (fun _ => "1") (fun _ _ => true)
    (fun _ => ("a", "b", "c", "> 1")) (fun _ => ("a", "b", "c")) (fun _ => none)
    flatOracleS [.num 1, .num 1, .num 1, .num 1, .num 1, .num 1, .num 1, .num 1] 1
  exact ⟨(h.1 (by decide) (by decide)).1,
    (h.2.1 (by decide) (by decide)).2,
    (h.2.2.1 (by decide) (by decide) (by decide) (by decide)).2,
    (h.2.2.2.1 (by decide) (by decide) (by decide) (by decide)).2,
    (h.2.2.2.2 (by decide) (by decide) (by decide) (by decide) (by decide) (by decide)).1⟩

/-- C9: `cosmos_script_wait_implementation_array_tolerance` evaluates
`statements.join(" and ")` on a Python list, which has no `join`
method, so it raises `AttributeError` for every input and for every
oracle — before any sampling, as the result does not depend on the
oracle at all; consequently the vector branch of `_wait_tolerance` and
of `_wait_check_tolerance` (reached when the initial sample is a list)
always propagates that `AttributeError` and never returns normally. -/
theorem array_tolerance_always_raises (g : ℚ → String) (ev : String → Sample → Bool)
    (o o2 : Oracle Sample) (array_size : Nat) (expected_value tolerance : List ℚ)
    (timeout polling_rate : ℚ) (fuel ci si : Nat)
    (parse3 : String → String × String × String) (raw : Bool)
    (s : String) (e0 t0 tmo : ℚ) (l : List ℚ) (hsamp : o.sample 0 = .arr l) :
    cosmos_script_wait_implementation_array_tolerance g ev o array_size expected_value
        tolerance timeout polling_rate fuel ci si
      = .error (.attributeError "'list' object has no attribute 'join'") ∧
    cosmos_script_wait_implementation_array_tolerance g ev o array_size expected_value
        tolerance timeout polling_rate fuel ci si
      = cosmos_script_wait_implementation_array_tolerance g ev o2 array_size expected_value
          tolerance timeout polling_rate fuel ci si ∧
    _wait_tolerance g ev parse3 o raw [.str s, .num e0, .num t0, .num tmo] fuel
      = some ([], .error (.attributeError "'list' object has no attribute 'join'")) ∧
    _wait_check_tolerance g ev parse3 o raw [.str s, .num e0, .num t0, .num tmo] fuel
      = some ([], .error (.attributeError "'list' object has no attribute 'join'")) := by
  refine ⟨rfl, rfl, ?_, ?_⟩
  · simp only [_wait_tolerance, wait_tolerance_process_args, pyAbs, PyVal.asStr, PyVal.q,
      hsamp, array_tolerance_process_args,
      cosmos_script_wait_implementation_array_tolerance, list_join]
    rfl
  · simp only [_wait_check_tolerance, wait_tolerance_process_args, pyAbs, PyVal.asStr,
      PyVal.q, hsamp, array_tolerance_process_args,
      cosmos_script_wait_implementation_array_tolerance, list_join]
    rfl

theorem array_tolerance_always_raises_witness :
    cosmos_script_wait_implementation_array_tolerance (fun _ => "N") (fun _ _ => true)
        arrOracle 3 [1, 1, 1] [1/10, 1/10, 1/10] 7 (1/4) 1 1 1
      = .error (.attributeError "'list' object has no attribute 'join'") ∧
    cosmos_script_wait_implementation_array_tolerance (fun _ => "N") (fun _ _ => true)
        arrOracle 3 [1, 1, 1] [1/10, 1/10, 1/10] 7 (1/4) 1 1 1
      = cosmos_script_wait_implementation_array_tolerance (fun _ => "N") (fun _ _ => true)
          flatOracleS 3 [1, 1, 1] [1/10, 1/10, 1/10] 7 (1/4) 1 1 1 ∧
    _wait_tolerance (fun _ => "N") (fun _ _ => true) (fun _ => ("a", "b", "c"))
        arrOracle false [.str "s", .num 1, .num (1/10), .num 7] 1
      = some ([], .error (.attributeError "'list' object has no attribute 'join'")) ∧
    _wait_check_tolerance (fun _ => "N") (fun _ _ => true) (fun _ => ("a", "b", "c"))
        arrOracle false [.str "s", .num 1, .num (1/10), .num 7] 1
      = some ([], .error (.attributeError "'list' object has no attribute 'join'")) :=
  array_tolerance_always_raises (fun _ => "N") (fun _ _ => true) arrOracle flatOracleS
    3 [1, 1, 1] [1/10, 1/10, 1/10] 7 (1/4) 1 1 1 (fun _ => ("a", "b", "c")) false
    "s" 1 (1/10) 7 [1, 4/5, 1] rfl
